import Mathlib

/-
Verification of the astro chart computation core (Go sources) against its
natural-language specification.  Real numbers (Go float64) are modelled as
rationals, so every arithmetic claim below is about the exact mathematical
values the code manipulates; machine-float rounding is outside the scope of
the properties checked here.
-/

set_option maxRecDepth 8000

namespace Astro

/-! ## Zodiac mapper (swisseph.ZodiacSign, src/unnamed/part_000 lines 163-174) -/

/-- The twelve fixed sign names, in order, from `ZodiacSign`'s local `signs` array. -/
def zodiacSigns : List String :=
  ["Aries", "Taurus", "Gemini", "Cancer",
   "Leo", "Virgo", "Libra", "Scorpio",
   "Sagittarius", "Capricorn", "Aquarius", "Pisces"]

/-- Go conversion `int(x)` of a real value: truncation toward zero. -/
def ratTrunc (q : ℚ) : ℤ :=
  if 0 ≤ q then ⌊q⌋ else -⌊-q⌋

/-- Shallow embedding of `swisseph.ZodiacSign`.  The Go code computes
`idx := int(longitude / 30.0)`, clamps `idx >= 12` down to `11`, and then
indexes `signs[idx]`; a negative `idx` makes that indexing panic, which the
embedding renders as `none`.  On success it returns the sign name and
`longitude - float64(idx)*30.0`. -/
def ZodiacSign (longitude : ℚ) : Option (String × ℚ) :=
  let idx0 : ℤ := ratTrunc (longitude / 30)
  let idx : ℤ := if 12 ≤ idx0 then 11 else idx0
  if h : 0 ≤ idx ∧ idx.toNat < zodiacSigns.length then
    some (zodiacSigns.get ⟨idx.toNat, h.2⟩, longitude - idx * 30)
  else
    none

/-! ## House system resolver (parseHouseSystem in src/cmd/run.go and src/main.go) -/

/-- ASCII lowercasing of a single character (A-Z mapped to a-z, all else kept). -/
def asciiLowerChar (c : Char) : Char :=
  if 'A' ≤ c ∧ c ≤ 'Z' then Char.ofNat (c.toNat + 32) else c

/-- ASCII lowercasing of a string.  A string is an ASCII-case variant of one of
the six lowercase ASCII house-system names exactly when its ASCII lowercasing
equals that name. -/
def asciiLower (s : String) : String :=
  String.mk (s.data.map asciiLowerChar)

/-- Shallow embedding of the effect of Go `strings.ToLower`, which lowercases
rune-wise with the Unicode simple lowercase mapping.  On ASCII characters that
mapping is exactly ASCII lowercasing; the only non-ASCII code points whose
simple lowercase mapping is an ASCII character are U+0130 (Latin capital letter
I with dot above, mapped to i) and U+212A (Kelvin sign, mapped to k), which are
modelled explicitly.  All other characters are left unchanged; since the match
targets below are ASCII-only strings, the resolver outcome computed from this
function agrees with the Go code on every input string. -/
def goToLowerChar (c : Char) : Char :=
  if 'A' ≤ c ∧ c ≤ 'Z' then Char.ofNat (c.toNat + 32)
  else if c = Char.ofNat 0x0130 then 'i'
  else if c = Char.ofNat 0x212A then 'k'
  else c

/-- Rune-wise lowercasing of a whole string, as `strings.ToLower` does. -/
def goToLower (s : String) : String :=
  String.mk (s.data.map goToLowerChar)

/-- The six valid house-system names, exactly as listed in the error message
of both `parseHouseSystem` functions. -/
def houseSystemValidNames : List String :=
  ["placidus", "koch", "whole-sign", "regiomontanus", "equal", "campanus"]

/-- Error value of the resolver: what the Go `fmt.Errorf` interpolates, namely
the offending input (rendered with `%q`) and the fixed list of valid names
spelled out in the format string. -/
structure UnknownHouseSystemError where
  input : String
  validNames : List String
deriving DecidableEq

/-- House-system byte codes from src/unnamed/part_000 lines 31-38, modelled as
characters (Go declares them as untyped rune constants used as bytes). -/
def HousePlacidus : Char := 'P'

/-- Koch house-system code. -/
def HouseKoch : Char := 'K'

/-- Whole Sign house-system code. -/
def HouseWholeSign : Char := 'W'

/-- Regiomontanus house-system code. -/
def HouseRegiomontanus : Char := 'R'

/-- Equal house-system code. -/
def HouseEqual : Char := 'A'

/-- Campanus house-system code. -/
def HouseCampanus : Char := 'C'

/-- Shallow embedding of `parseHouseSystem` from src/cmd/run.go (lines 91-108):
a switch on `strings.ToLower(name)` returning the code and canonical display
name, or the unknown-house-system error. -/
def cmd.parseHouseSystem (name : String) :
    Except UnknownHouseSystemError (Char × String) :=
  let l := goToLower name
  if l = "placidus" then .ok (HousePlacidus, "Placidus")
  else if l = "koch" then .ok (HouseKoch, "Koch")
  else if l = "whole-sign" then .ok (HouseWholeSign, "Whole Sign")
  else if l = "regiomontanus" then .ok (HouseRegiomontanus, "Regiomontanus")
  else if l = "equal" then .ok (HouseEqual, "Equal")
  else if l = "campanus" then .ok (HouseCampanus, "Campanus")
  else .error ⟨name, houseSystemValidNames⟩

/-- Shallow embedding of `parseHouseSystem` from src/main.go (lines 75-92):
same switch, but returning only the code (the Go function returns byte 0
alongside the error in the default case). -/
def mainPkg.parseHouseSystem (name : String) :
    Except UnknownHouseSystemError Char :=
  let l := goToLower name
  if l = "placidus" then .ok HousePlacidus
  else if l = "koch" then .ok HouseKoch
  else if l = "whole-sign" then .ok HouseWholeSign
  else if l = "regiomontanus" then .ok HouseRegiomontanus
  else if l = "equal" then .ok HouseEqual
  else if l = "campanus" then .ok HouseCampanus
  else .error ⟨name, houseSystemValidNames⟩

/-! ## Time converter (swisseph.JulDay, src/unnamed/part_000 lines 71-76) -/

/-- Modelled from the spec: the Time Converter `ToNativeTime`.  The repository
function `swisseph.JulDay` only forwards to `swe_julday(year, month, day,
hour, SE_GREG_CAL)` in the bundled Swiss Ephemeris C code, which is not under
src/; per the spec it converts a calendar date plus fractional UT hour to a
Julian day number using the proleptic Gregorian convention throughout (no
Julian/Gregorian switchover).  The integer part is the standard proleptic
Gregorian Julian day number of the date at noon; the returned value places
`hour = 12` exactly at that integer. -/
def JulDay (year month day : ℤ) (hour : ℚ) : ℚ :=
  let a : ℤ := (14 - month) / 12
  let y : ℤ := year + 4800 - a
  let m : ℤ := month + 12 * a - 3
  let jdn : ℤ := day + (153 * m + 2) / 5 + 365 * y + y / 4 - y / 100 + y / 400 - 32045
  (jdn : ℚ) - 1/2 + hour / 24

/-! ## Ephemeris engine adapter data model (src/unnamed/part_000) -/

/-- Result of a planetary position calculation (struct `PlanetPos`,
src/unnamed/part_000 lines 79-86). -/
structure PlanetPos where
  Longitude : ℚ
  Latitude : ℚ
  Distance : ℚ
  SpeedLon : ℚ
  SpeedLat : ℚ
  SpeedDistance : ℚ
deriving DecidableEq, Inhabited

/-- Result of a house calculation (struct `HouseResult`, src/unnamed/part_000
lines 119-125).  `Cusps` models the `[13]float64` array: indices 1-12 are
houses 1-12 and index 0 is unused. -/
structure HouseResult where
  Cusps : Fin 13 → ℚ
  Ascendant : ℚ
  MC : ℚ
  ARMC : ℚ
  Vertex : ℚ

/-- Oracle for the three engine-backed adapter operations that `Build` uses.
Each field abstracts the corresponding `swisseph` function as a pure function
of its arguments; `Except.error` carries the message of the non-nil Go error
(`CalcPlanet` and `CalcHouses` fail exactly when the native call returns a
negative status). -/
structure Engine where
  PlanetName : ℤ → String
  CalcPlanet : ℚ → ℤ → Except String PlanetPos
  CalcHouses : ℚ → ℚ → ℚ → Char → Except String HouseResult

/-! ## Chart assembler (output.Build, src/output/result.go) -/

/-- Presentation-ready data for a single planet (struct `PlanetEntry`,
src/output/result.go lines 11-21). -/
structure PlanetEntry where
  Name : String
  Longitude : ℚ
  Sign : String
  SignDegree : ℚ
  Speed : ℚ
  Latitude : ℚ
  Distance : ℚ
  SpeedLat : ℚ
  SpeedDistance : ℚ
deriving DecidableEq, Inhabited

/-- Presentation-ready data for a chart angle (struct `AngleEntry`). -/
structure AngleEntry where
  Longitude : ℚ
  Sign : String
  SignDegree : ℚ
deriving DecidableEq, Inhabited

/-- Presentation-ready data for a single house cusp (struct `CuspEntry`).
The Go `House` field is an `int` that is always set from the loop counter
`i = 1..12`, modelled as a natural number. -/
structure CuspEntry where
  House : ℕ
  Longitude : ℚ
  Sign : String
  SignDegree : ℚ
deriving DecidableEq, Inhabited

/-- All computed, presentation-ready chart data (struct `Result`,
src/output/result.go lines 43-54). -/
structure Result where
  JulianDay : ℚ
  HouseName : String
  Lat : ℚ
  Lon : ℚ
  Planets : List PlanetEntry
  Ascendant : AngleEntry
  MC : AngleEntry
  ARMC : ℚ
  Vertex : AngleEntry
  Cusps : List CuspEntry
deriving DecidableEq, Inhabited

/-- The per-planet loop of `Build` (src/output/result.go lines 61-79): for
each requested planet, in order, look up its name, calculate its position
(aborting the whole build with `error calculating <name>: <err>` on failure),
map its longitude to a zodiac placement, and append the fully populated entry.
The outer `Option` is the panic effect of `ZodiacSign` on an out-of-range
index. -/
def planetLoop (eng : Engine) (jd : ℚ) : List ℤ → Option (Except String (List PlanetEntry))
  | [] => some (.ok [])
  | p :: rest =>
    let name := eng.PlanetName p
    match eng.CalcPlanet jd p with
    | .error e => some (.error ("error calculating " ++ name ++ ": " ++ e))
    | .ok pos =>
      match ZodiacSign pos.Longitude with
      | none => none
      | some sd =>
        match planetLoop eng jd rest with
        | none => none
        | some (.error e) => some (.error e)
        | some (.ok tail) =>
          some (.ok ({ Name := name, Longitude := pos.Longitude, Sign := sd.1,
                       SignDegree := sd.2, Speed := pos.SpeedLon,
                       Latitude := pos.Latitude, Distance := pos.Distance,
                       SpeedLat := pos.SpeedLat,
                       SpeedDistance := pos.SpeedDistance } :: tail))

/-- The cusp loop of `Build` (src/output/result.go lines 94-102): for each
house index (the code runs `i = 1..12`), map the engine cusp longitude for
that house to a zodiac placement and append a `CuspEntry` carrying the house
number and the cusp longitude. -/
def cuspLoop (houses : HouseResult) : List (Fin 13) → Option (List CuspEntry)
  | [] => some []
  | i :: rest =>
    match ZodiacSign (houses.Cusps i) with
    | none => none
    | some sd =>
      match cuspLoop houses rest with
      | none => none
      | some tail =>
        some ({ House := (i : ℕ), Longitude := houses.Cusps i,
                Sign := sd.1, SignDegree := sd.2 } :: tail)

/-- The house indices `1..12` traversed by the cusp loop, as indices into the
13-slot cusp array (slot 0 is skipped, preserving the public 1..12 numbering). -/
def houseIndices : List (Fin 13) :=
  [1, 2, 3, 4, 5, 6, 7, 8, 9, 10, 11, 12]

/-- The tail of `Build` after a successful `CalcHouses` (src/output/result.go
lines 86-104): zodiac placements for the Ascendant, MC and Vertex, then the
cusp loop, assembled into the final `Result` together with the already
computed planet entries. -/
def assembleHouses (jd : ℚ) (hsysName : String) (lat lon : ℚ)
    (entries : List PlanetEntry) (houses : HouseResult) : Option Result :=
  match ZodiacSign houses.Ascendant with
  | none => none
  | some asc =>
    match ZodiacSign houses.MC with
    | none => none
    | some mc =>
      match ZodiacSign houses.Vertex with
      | none => none
      | some vtx =>
        match cuspLoop houses houseIndices with
        | none => none
        | some cusps =>
          some { JulianDay := jd, HouseName := hsysName, Lat := lat, Lon := lon,
                 Planets := entries,
                 Ascendant := { Longitude := houses.Ascendant, Sign := asc.1,
                                SignDegree := asc.2 },
                 MC := { Longitude := houses.MC, Sign := mc.1, SignDegree := mc.2 },
                 ARMC := houses.ARMC,
                 Vertex := { Longitude := houses.Vertex, Sign := vtx.1,
                             SignDegree := vtx.2 },
                 Cusps := cusps }

/-- Shallow embedding of `output.Build` (src/output/result.go lines 58-105):
run the planet loop (any per-planet failure aborts the build), then perform
exactly one `CalcHouses` call (any failure there aborts the build with
`error calculating houses: <err>`), then assemble the immutable result.  The
outer `Option` is the panic effect of `ZodiacSign`; `Except.error` is the
non-nil Go error returned together with the zero `Result{}`. -/
def Build (eng : Engine) (jd : ℚ) (planets : List ℤ) (lat lon : ℚ)
    (hsys : Char) (hsysName : String) : Option (Except String Result) :=
  match planetLoop eng jd planets with
  | none => none
  | some (.error e) => some (.error e)
  | some (.ok entries) =>
    match eng.CalcHouses jd lat lon hsys with
    | .error e => some (.error ("error calculating houses: " ++ e))
    | .ok houses =>
      match assembleHouses jd hsysName lat lon entries houses with
      | none => none
      | some r => some (.ok r)

/-! ## Helper lemmas about the zodiac mapper -/

theorem ratTrunc_of_nonneg {q : ℚ} (h : 0 ≤ q) : ratTrunc q = ⌊q⌋ := if_pos h

theorem ratTrunc_of_not_nonneg {q : ℚ} (h : ¬ 0 ≤ q) : ratTrunc q = -⌊-q⌋ := if_neg h

theorem zodiacSigns_length : zodiacSigns.length = 12 := rfl

/-- In-range evaluation of `ZodiacSign`: when the truncated index is already
in 0..11 the clamp is a no-op and the lookup succeeds. -/
theorem ZodiacSign_of_floor_lt {L : ℚ} (h0 : 0 ≤ L) (h12 : ⌊L / 30⌋ < 12) :
    ZodiacSign L =
      some (zodiacSigns.getD (⌊L / 30⌋).toNat "", L - 30 * (⌊L / 30⌋ : ℚ)) := by
  have hq : (0 : ℚ) ≤ L / 30 := div_nonneg h0 (by norm_num)
  have hfl0 : 0 ≤ ⌊L / 30⌋ := Int.floor_nonneg.mpr hq
  have htn : (⌊L / 30⌋).toNat < zodiacSigns.length := by
    rw [zodiacSigns_length]
    omega
  simp only [ZodiacSign, ratTrunc_of_nonneg hq, if_neg (by omega : ¬ 12 ≤ ⌊L / 30⌋),
    dif_pos (And.intro hfl0 htn)]
  rw [List.getD_eq_getElem _ _ htn]
  simp [List.get_eq_getElem, mul_comm]

/-- Every longitude of at least 360 overflows the sign table and is clamped
to index 11, Pisces, with degree `L - 330`. -/
theorem ZodiacSign_of_ge_360 {L : ℚ} (hge : 360 ≤ L) :
    ZodiacSign L = some ("Pisces", L - 330) := by
  have hq : (0 : ℚ) ≤ L / 30 := div_nonneg (by linarith) (by norm_num)
  have h12 : (12 : ℤ) ≤ ⌊L / 30⌋ := by
    rw [Int.le_floor]
    rw [le_div_iff (by norm_num : (0 : ℚ) < 30)]
    push_cast
    linarith
  simp only [ZodiacSign, ratTrunc_of_nonneg hq, if_pos h12]
  rw [dif_pos (by constructor <;> simp [zodiacSigns_length])]
  have hp : zodiacSigns.get ⟨(11 : ℤ).toNat, by simp [zodiacSigns_length]⟩ = "Pisces" := rfl
  rw [hp]
  norm_num

/-- Every longitude strictly greater than -30 truncates to a nonnegative
index, so the sign lookup is in bounds and the function returns. -/
theorem ZodiacSign_isSome_of_gt_neg30 {L : ℚ} (hgt : -30 < L) :
    (ZodiacSign L).isSome = true := by
  by_cases h0 : 0 ≤ L
  · by_cases h12 : ⌊L / 30⌋ < 12
    · rw [ZodiacSign_of_floor_lt h0 h12]
      rfl
    · have hq : (0 : ℚ) ≤ L / 30 := div_nonneg h0 (by norm_num)
      simp only [ZodiacSign, ratTrunc_of_nonneg hq, if_pos (by omega : 12 ≤ ⌊L / 30⌋)]
      rw [dif_pos (by constructor <;> simp [zodiacSigns_length])]
      rfl
  · have hq : ¬ (0 : ℚ) ≤ L / 30 := by
      intro hc
      exact h0 (by nlinarith [hc])
    have hneg : -L / 30 < 1 := by
      rw [div_lt_one (by norm_num : (0 : ℚ) < 30)]
      linarith
    have hnn : (0 : ℚ) ≤ -L / 30 := by
      rw [le_div_iff (by norm_num : (0 : ℚ) < 30)]
      push_neg at h0
      linarith
    have hfl : ⌊-L / 30⌋ = 0 := Int.floor_eq_zero_iff.mpr ⟨hnn, hneg⟩
    have hq2 : -(L / 30) = -L / 30 := (neg_div 30 L).symm
    simp only [ZodiacSign, ratTrunc_of_not_nonneg hq, hq2, hfl, neg_zero,
      if_neg (by norm_num : ¬ (12 : ℤ) ≤ 0)]
    rw [dif_pos (by exact ⟨le_refl 0, by decide⟩)]
    rfl

/-- Every longitude of at most -30 truncates to a negative index, and the
sign lookup panics (`none` in this embedding). -/
theorem ZodiacSign_none_of_le_neg30 {L : ℚ} (hle : L ≤ -30) :
    ZodiacSign L = none := by
  have hq : ¬ (0 : ℚ) ≤ L / 30 := by
    intro hc
    nlinarith [hc]
  have h1 : (1 : ℚ) ≤ -L / 30 := by
    rw [le_div_iff (by norm_num : (0 : ℚ) < 30)]
    linarith
  have hfl : (1 : ℤ) ≤ ⌊-L / 30⌋ := Int.le_floor.mpr (by push_cast; linarith)
  have hq2 : -(L / 30) = -L / 30 := (neg_div 30 L).symm
  simp only [ZodiacSign, ratTrunc_of_not_nonneg hq, hq2]
  rw [dif_neg]
  rw [if_neg (by omega : ¬ (12 : ℤ) ≤ -⌊-L / 30⌋)]
  simp only [zodiacSigns_length]
  omega

/-! ## Helper lemmas about the house-system resolver -/

theorem goToLowerChar_ascii {c : Char} (hc : c.toNat < 128) :
    goToLowerChar c = asciiLowerChar c := by
  unfold goToLowerChar asciiLowerChar
  split_ifs with h1 h2 h3
  · rfl
  · rw [h2] at hc
    exact absurd hc (by decide)
  · rw [h3] at hc
    exact absurd hc (by decide)
  · rfl

theorem goToLower_eq_asciiLower {s : String} (hs : ∀ c ∈ s.data, c.toNat < 128) :
    goToLower s = asciiLower s := by
  unfold goToLower asciiLower
  exact congrArg String.mk (List.map_congr_left fun c hc => goToLowerChar_ascii (hs c hc))

/-! ## Helper lemmas about the chart assembler -/

theorem build_ok_elim (eng : Engine) (jd : ℚ) (planets : List ℤ) (lat lon : ℚ)
    (hsys : Char) (hsysName : String) (r : Result)
    (h : Build eng jd planets lat lon hsys hsysName = some (.ok r)) :
    ∃ es hr, planetLoop eng jd planets = some (.ok es) ∧
      eng.CalcHouses jd lat lon hsys = .ok hr ∧
      assembleHouses jd hsysName lat lon es hr = some r := by
  unfold Build at h
  cases hpl : planetLoop eng jd planets with
  | none => rw [hpl] at h; simp at h
  | some x =>
    cases x with
    | error e => rw [hpl] at h; simp at h
    | ok es =>
      rw [hpl] at h
      simp only [] at h
      cases hH : eng.CalcHouses jd lat lon hsys with
      | error e => rw [hH] at h; simp at h
      | ok hr =>
        rw [hH] at h
        simp only [] at h
        cases hA : assembleHouses jd hsysName lat lon es hr with
        | none => rw [hA] at h; simp at h
        | some r0 =>
          rw [hA] at h
          simp only [Option.some.injEq] at h
          refine ⟨es, hr, rfl, rfl, ?_⟩
          rw [hA, Except.ok.inj h]

theorem assembleHouses_spec (jd : ℚ) (hsysName : String) (lat lon : ℚ)
    (es : List PlanetEntry) (hr : HouseResult) (r : Result)
    (h : assembleHouses jd hsysName lat lon es hr = some r) :
    r.JulianDay = jd ∧ r.HouseName = hsysName ∧ r.Lat = lat ∧ r.Lon = lon ∧
    r.Planets = es ∧ r.Ascendant.Longitude = hr.Ascendant ∧
    r.MC.Longitude = hr.MC ∧ r.ARMC = hr.ARMC ∧ r.Vertex.Longitude = hr.Vertex ∧
    cuspLoop hr houseIndices = some r.Cusps := by
  unfold assembleHouses at h
  cases hasc : ZodiacSign hr.Ascendant with
  | none => rw [hasc] at h; simp at h
  | some asc =>
    rw [hasc] at h
    cases hmc : ZodiacSign hr.MC with
    | none => rw [hmc] at h; simp at h
    | some mc =>
      rw [hmc] at h
      cases hvtx : ZodiacSign hr.Vertex with
      | none => rw [hvtx] at h; simp at h
      | some vtx =>
        rw [hvtx] at h
        cases hcl : cuspLoop hr houseIndices with
        | none => rw [hcl] at h; simp at h
        | some cusps =>
          rw [hcl] at h
          simp only [Option.some.injEq] at h
          cases h
          exact ⟨rfl, rfl, rfl, rfl, rfl, rfl, rfl, rfl, rfl, rfl⟩

theorem cuspLoop_spec (hr : HouseResult) :
    ∀ (l : List (Fin 13)) (cs : List CuspEntry), cuspLoop hr l = some cs →
      cs.map CuspEntry.House = l.map (fun i => (i : ℕ)) ∧
      cs.map CuspEntry.Longitude = l.map hr.Cusps := by
  intro l
  induction l with
  | nil =>
    intro cs h
    have h2 : (some [] : Option (List CuspEntry)) = some cs := h
    cases Option.some.inj h2
    simp
  | cons i rest ih =>
    intro cs h
    unfold cuspLoop at h
    cases hz : ZodiacSign (hr.Cusps i) with
    | none => rw [hz] at h; simp at h
    | some sd =>
      rw [hz] at h
      cases hc : cuspLoop hr rest with
      | none => rw [hc] at h; simp at h
      | some tail =>
        rw [hc] at h
        simp only [Option.some.injEq] at h
        cases h
        obtain ⟨h1, h2⟩ := ih tail hc
        simp [List.map_cons, h1, h2]

theorem planetLoop_ok_spec (eng : Engine) (jd : ℚ) :
    ∀ (ps : List ℤ) (es : List PlanetEntry),
      planetLoop eng jd ps = some (.ok es) →
      es.length = ps.length ∧
      ∀ i, i < ps.length → ∃ pos,
        eng.CalcPlanet jd (ps.getD i 0) = .ok pos ∧
        (es.getD i default).Name = eng.PlanetName (ps.getD i 0) ∧
        (es.getD i default).Longitude = pos.Longitude ∧
        (es.getD i default).Speed = pos.SpeedLon ∧
        (es.getD i default).Latitude = pos.Latitude ∧
        (es.getD i default).Distance = pos.Distance ∧
        (es.getD i default).SpeedLat = pos.SpeedLat ∧
        (es.getD i default).SpeedDistance = pos.SpeedDistance := by
  intro ps
  induction ps with
  | nil =>
    intro es h
    have h2 : (some (Except.ok []) : Option (Except String (List PlanetEntry)))
        = some (.ok es) := h
    cases Except.ok.inj (Option.some.inj h2)
    simp
  | cons p rest ih =>
    intro es h
    unfold planetLoop at h
    cases hcp : eng.CalcPlanet jd p with
    | error e => rw [hcp] at h; simp at h
    | ok pos =>
      rw [hcp] at h
      simp only [] at h
      cases hz : ZodiacSign pos.Longitude with
      | none => rw [hz] at h; simp at h
      | some sd =>
        rw [hz] at h
        simp only [] at h
        cases hrest : planetLoop eng jd rest with
        | none => rw [hrest] at h; simp at h
        | some x =>
          cases x with
          | error e => rw [hrest] at h; simp at h
          | ok tail =>
            rw [hrest] at h
            simp only [Option.some.injEq, Except.ok.injEq] at h
            cases h
            obtain ⟨hlen, hfields⟩ := ih tail hrest
            constructor
            · simp [hlen]
            · intro i hi
              cases i with
              | zero => exact ⟨pos, hcp, rfl, rfl, rfl, rfl, rfl, rfl, rfl⟩
              | succ j =>
                simp only [List.getD_cons_succ]
                exact hfields j (by simpa using hi)

theorem planetLoop_first_error (eng : Engine) (jd : ℚ) (p : ℤ) (rest : List ℤ)
    (e : String) (hp : eng.CalcPlanet jd p = .error e) :
    ∀ pre : List ℤ,
      (∀ q ∈ pre, ∃ pos sd, eng.CalcPlanet jd q = .ok pos ∧
        ZodiacSign pos.Longitude = some sd) →
      planetLoop eng jd (pre ++ p :: rest) =
        some (.error ("error calculating " ++ eng.PlanetName p ++ ": " ++ e)) := by
  intro pre
  induction pre with
  | nil =>
    intro _
    rw [List.nil_append]
    simp only [planetLoop, hp]
  | cons q pre ih =>
    intro hok
    obtain ⟨pos, sd, hq, hz⟩ := hok q (by simp)
    have htail := ih fun q2 hq2 => hok q2 (by simp [hq2])
    rw [List.cons_append]
    simp only [planetLoop, hq, hz, htail]

/-! ## Claim C2: zodiac mapping on the documented domain -/

/-- C2.  For every longitude L in [0,360), `ZodiacSign(L)` returns the sign
`names[floor(L/30)]` out of the 12 fixed ordered names starting at Aries and
the degree `L - 30*floor(L/30)`, which lies in [0,30); and `ZodiacSign(360)`
returns exactly ("Pisces", 30.0) - the index-at-least-12 clamp to Pisces with
degree 30.0, a deliberate boundary policy rather than an error. -/
theorem zodiacSign_maps_longitudes :
    (∀ L : ℚ, 0 ≤ L → L < 360 →
      ZodiacSign L =
        some (zodiacSigns.getD (⌊L / 30⌋).toNat "", L - 30 * (⌊L / 30⌋ : ℚ)) ∧
      0 ≤ L - 30 * (⌊L / 30⌋ : ℚ) ∧ L - 30 * (⌊L / 30⌋ : ℚ) < 30) ∧
    ZodiacSign 360 = some ("Pisces", 30) := by
  constructor
  · intro L h0 h1
    have hq : L / 30 < 12 := (div_lt_iff (by norm_num : (0 : ℚ) < 30)).mpr (by linarith)
    have h12 : ⌊L / 30⌋ < 12 := Int.floor_lt.mpr (by exact_mod_cast hq)
    have hle : (⌊L / 30⌋ : ℚ) ≤ L / 30 := Int.floor_le _
    have hlt : L / 30 < (⌊L / 30⌋ : ℚ) + 1 := Int.lt_floor_add_one _
    refine ⟨ZodiacSign_of_floor_lt h0 h12, ?_, ?_⟩
    · nlinarith
    · nlinarith
  · rw [ZodiacSign_of_ge_360 (le_refl (360 : ℚ))]
    norm_num

/-! ## Claim C10: totality domain of the zodiac mapper -/

/-- C10.  The lookup into the 12-element sign table is in bounds (the function
returns without panicking) for every longitude strictly greater than -30,
and every longitude of at least 360 clamps to Pisces (with degree L - 330);
for any longitude at most -30 the computed index is negative and the array
indexing fails (`none` in this total embedding), so the function is total
exactly on longitudes greater than -30 - strictly wider than the documented
[0,360] precondition. -/
theorem zodiacSign_total_above_neg30 :
    ∀ L : ℚ,
      (-30 < L → (ZodiacSign L).isSome = true) ∧
      (360 ≤ L → ZodiacSign L = some ("Pisces", L - 330)) ∧
      (L ≤ -30 → ZodiacSign L = none) :=
  fun _ => ⟨fun h => ZodiacSign_isSome_of_gt_neg30 h,
            fun h => ZodiacSign_of_ge_360 h,
            fun h => ZodiacSign_none_of_le_neg30 h⟩

/-! ## Claim C3 (amended): the house-system resolver -/

/-- Amended C3.  The resolver lowercases its input rune-wise with the Unicode
simple case mapping (which coincides with ASCII lowercasing on all-ASCII
input, so every recognized name in any ASCII case is covered); it returns the
documented (code, displayName) pair exactly when the lowered input is one of
the six names, and for every other string - including the empty string - it
fails with the error carrying the input and the list of the six valid names. -/
theorem parseHouseSystem_resolves (s : String) :
    ((∀ c ∈ s.data, c.toNat < 128) → goToLower s = asciiLower s) ∧
    (goToLower s = "placidus" → cmd.parseHouseSystem s = .ok ('P', "Placidus")) ∧
    (goToLower s = "koch" → cmd.parseHouseSystem s = .ok ('K', "Koch")) ∧
    (goToLower s = "whole-sign" → cmd.parseHouseSystem s = .ok ('W', "Whole Sign")) ∧
    (goToLower s = "regiomontanus" →
      cmd.parseHouseSystem s = .ok ('R', "Regiomontanus")) ∧
    (goToLower s = "equal" → cmd.parseHouseSystem s = .ok ('A', "Equal")) ∧
    (goToLower s = "campanus" → cmd.parseHouseSystem s = .ok ('C', "Campanus")) ∧
    (goToLower s ∉ houseSystemValidNames →
      cmd.parseHouseSystem s = .error ⟨s, houseSystemValidNames⟩) := by
  refine ⟨fun h => goToLower_eq_asciiLower h, ?_, ?_, ?_, ?_, ?_, ?_, ?_⟩
  · intro h
    simp [cmd.parseHouseSystem, h, HousePlacidus]
  · intro h
    simp [cmd.parseHouseSystem, h, HouseKoch]
  · intro h
    simp [cmd.parseHouseSystem, h, HouseWholeSign]
  · intro h
    simp [cmd.parseHouseSystem, h, HouseRegiomontanus]
  · intro h
    simp [cmd.parseHouseSystem, h, HouseEqual]
  · intro h
    simp [cmd.parseHouseSystem, h, HouseCampanus]
  · intro h
    simp only [houseSystemValidNames, List.mem_cons, List.not_mem_nil, or_false] at h
    push_neg at h
    obtain ⟨h1, h2, h3, h4, h5, h6⟩ := h
    simp [cmd.parseHouseSystem, h1, h2, h3, h4, h5, h6]

/-! ## Claim C9: the two parseHouseSystem functions agree -/

/-- C9.  For every input string, the parser in src/main.go and the parser in
src/cmd/run.go fail on exactly the same inputs (with the same error data),
and on success the main.go parser returns exactly the code component of the
run.go parser's (code, displayName) pair. -/
theorem parseHouseSystem_agree (s : String) :
    mainPkg.parseHouseSystem s = Except.map Prod.fst (cmd.parseHouseSystem s) := by
  simp only [mainPkg.parseHouseSystem, cmd.parseHouseSystem]
  split_ifs <;> rfl

/-! ## Claim C1 (amended): Build has no failure policy and always aborts -/

/-- Amended C1.  `Build` takes no failure-policy flag: it processes the
requested bodies in caller order, and the first per-body `CalcPlanet` failure
unconditionally aborts the whole Result with the error naming that body; a
record-and-continue mode that would omit the failed body does not exist. -/
theorem build_aborts_on_first_body_failure (eng : Engine) (jd : ℚ)
    (pre : List ℤ) (p : ℤ) (rest : List ℤ) (lat lon : ℚ) (hsys : Char)
    (hsysName : String) (e : String)
    (hpre : ∀ q ∈ pre, ∃ pos sd, eng.CalcPlanet jd q = .ok pos ∧
      ZodiacSign pos.Longitude = some sd)
    (hp : eng.CalcPlanet jd p = .error e) :
    Build eng jd (pre ++ p :: rest) lat lon hsys hsysName =
      some (.error ("error calculating " ++ eng.PlanetName p ++ ": " ++ e)) := by
  have hpl := planetLoop_first_error eng jd p rest e hp pre hpre
  unfold Build
  rw [hpl]

/-! ## Claim C4: a house-calculation failure is unconditionally fatal -/

/-- C4.  Whenever `CalcHouses` fails, `Build` returns an error and never a
Result: no successful Result can be produced (so partial house data is never
returned, however many body positions were already computed), and when the
house call is actually reached (all bodies succeeded) the returned error is
`error calculating houses: <err>`. -/
theorem build_houses_failure_fatal (eng : Engine) (jd : ℚ) (planets : List ℤ)
    (lat lon : ℚ) (hsys : Char) (hsysName : String) (e : String)
    (hH : eng.CalcHouses jd lat lon hsys = .error e) :
    (∀ r : Result, Build eng jd planets lat lon hsys hsysName ≠ some (.ok r)) ∧
    (∀ es, planetLoop eng jd planets = some (.ok es) →
      Build eng jd planets lat lon hsys hsysName =
        some (.error ("error calculating houses: " ++ e))) := by
  constructor
  · intro r hB
    obtain ⟨es, hr, _, hH2, _⟩ :=
      build_ok_elim eng jd planets lat lon hsys hsysName r hB
    rw [hH] at hH2
    exact absurd hH2 (by simp)
  · intro es hpl
    unfold Build
    rw [hpl]
    simp only []
    rw [hH]

/-! ## Claim C5: the cusp list is 12 entries numbered 1..12 in order -/

/-- C5.  Every Result successfully returned by `Build` contains a cusp list of
exactly 12 entries whose House numbers are 1 through 12 in ascending order,
the entry for house i carrying the engine's cusp longitude for house i: the
engine's 13-slot, 1-indexed array (unused slot 0) is re-exposed as a
zero-indexed 12-element sequence preserving the public 1..12 numbering. -/
theorem build_cusps_numbered (eng : Engine) (jd : ℚ) (planets : List ℤ)
    (lat lon : ℚ) (hsys : Char) (hsysName : String) (r : Result) (hr : HouseResult)
    (hB : Build eng jd planets lat lon hsys hsysName = some (.ok r))
    (hH : eng.CalcHouses jd lat lon hsys = .ok hr) :
    r.Cusps.length = 12 ∧
    r.Cusps.map CuspEntry.House = [1, 2, 3, 4, 5, 6, 7, 8, 9, 10, 11, 12] ∧
    r.Cusps.map CuspEntry.Longitude =
      [hr.Cusps 1, hr.Cusps 2, hr.Cusps 3, hr.Cusps 4, hr.Cusps 5, hr.Cusps 6,
       hr.Cusps 7, hr.Cusps 8, hr.Cusps 9, hr.Cusps 10, hr.Cusps 11, hr.Cusps 12] := by
  obtain ⟨es, hr2, hpl, hH2, hA⟩ :=
    build_ok_elim eng jd planets lat lon hsys hsysName r hB
  rw [hH] at hH2
  cases Except.ok.inj hH2
  obtain ⟨_, _, _, _, _, _, _, _, _, hcl⟩ :=
    assembleHouses_spec jd hsysName lat lon es hr r hA
  obtain ⟨hHouse, hLong⟩ := cuspLoop_spec hr houseIndices r.Cusps hcl
  have hidx : houseIndices.map (fun i : Fin 13 => (i : ℕ)) =
      [1, 2, 3, 4, 5, 6, 7, 8, 9, 10, 11, 12] := rfl
  have hlon2 : houseIndices.map hr.Cusps =
      [hr.Cusps 1, hr.Cusps 2, hr.Cusps 3, hr.Cusps 4, hr.Cusps 5, hr.Cusps 6,
       hr.Cusps 7, hr.Cusps 8, hr.Cusps 9, hr.Cusps 10, hr.Cusps 11, hr.Cusps 12] := rfl
  refine ⟨?_, ?_, ?_⟩
  · have hl := congrArg List.length (hHouse.trans hidx)
    simpa using hl
  · exact hHouse.trans hidx
  · exact hLong.trans hlon2

/-! ## Claim C6: every field of every entry is computed and stored -/

/-- C6.  In every Result successfully built, every field of every entry is
computed and stored: each planet entry carries Latitude, Distance, SpeedLat
and SpeedDistance copied from the engine's body position, and the Result
carries ARMC and the Vertex longitude from the house calculation.  `Build`
takes no verbosity input at all, so none of this depends on any render-time
verbosity setting, which only controls what a renderer surfaces. -/
theorem build_populates_all_fields (eng : Engine) (jd : ℚ) (planets : List ℤ)
    (lat lon : ℚ) (hsys : Char) (hsysName : String) (r : Result) (hr : HouseResult)
    (hB : Build eng jd planets lat lon hsys hsysName = some (.ok r))
    (hH : eng.CalcHouses jd lat lon hsys = .ok hr) :
    r.ARMC = hr.ARMC ∧ r.Vertex.Longitude = hr.Vertex ∧
    r.Planets.length = planets.length ∧
    ∀ i, i < planets.length → ∃ pos,
      eng.CalcPlanet jd (planets.getD i 0) = .ok pos ∧
      (r.Planets.getD i default).Latitude = pos.Latitude ∧
      (r.Planets.getD i default).Distance = pos.Distance ∧
      (r.Planets.getD i default).SpeedLat = pos.SpeedLat ∧
      (r.Planets.getD i default).SpeedDistance = pos.SpeedDistance := by
  obtain ⟨es, hr2, hpl, hH2, hA⟩ :=
    build_ok_elim eng jd planets lat lon hsys hsysName r hB
  rw [hH] at hH2
  cases Except.ok.inj hH2
  obtain ⟨_, _, _, _, hPl, _, _, hARMC, hVtx, _⟩ :=
    assembleHouses_spec jd hsysName lat lon es hr r hA
  obtain ⟨hlen, hfields⟩ := planetLoop_ok_spec eng jd planets es hpl
  refine ⟨hARMC, hVtx, ?_, ?_⟩
  · rw [hPl]
    exact hlen
  · intro i hi
    obtain ⟨pos, hcp, _, _, _, hLat, hDist, hSLat, hSDist⟩ := hfields i hi
    rw [hPl]
    exact ⟨pos, hcp, hLat, hDist, hSLat, hSDist⟩

end Astro

attribute [local semireducible] Rat.mul Rat.inv Rat.add Rat.sub Rat.ofScientific

namespace Astro

/-! ## Concrete evaluations: sanity checks of the embedding -/

example : ZodiacSign 0 = some ("Aries", 0) := by decide
example : ZodiacSign 45.5 = some ("Taurus", 15.5) := by decide
example : ZodiacSign 360 = some ("Pisces", 30) := by decide
example : ZodiacSign 359.9 = some ("Pisces", 29.9) := by decide
example : ZodiacSign (-30) = none := by decide
example : ZodiacSign (-29.5) = some ("Aries", -29.5) := by decide
example : ZodiacSign 400 = some ("Pisces", 70) := by decide
example : cmd.parseHouseSystem "Whole-Sign" = .ok ('W', "Whole Sign") := rfl
example : cmd.parseHouseSystem "porphyry" =
    .error ⟨"porphyry", houseSystemValidNames⟩ := rfl
example : cmd.parseHouseSystem "" = .error ⟨"", houseSystemValidNames⟩ := rfl

/-! ## Claim C7: reference epochs of the time converter -/

/-- C7.  The time converter, using the proleptic Gregorian convention, returns
exactly 2451545.0 for (2000, 1, 1, 12.0) - the J2000.0 reference epoch - and
exactly 2440587.5 for (1970, 1, 1, 0.0) - the Unix epoch. -/
theorem julDay_reference_epochs :
    JulDay 2000 1 1 12 = 2451545 ∧ JulDay 1970 1 1 0 = 2440587.5 :=
  ⟨by decide, by decide⟩

/-! ## Witnesses and counterexamples at concrete inputs -/

/-- Witness for C2 at the concrete longitude 45.5 (Taurus 15.5). -/
theorem zodiacSign_maps_longitudes_witness :
    (0 : ℚ) ≤ 45.5 ∧ (45.5 : ℚ) < 360 ∧
    ZodiacSign 45.5 =
      some (zodiacSigns.getD (⌊(45.5 : ℚ) / 30⌋).toNat "",
            45.5 - 30 * (⌊(45.5 : ℚ) / 30⌋ : ℚ)) :=
  ⟨by norm_num, by norm_num,
   (zodiacSign_maps_longitudes.1 45.5 (by norm_num) (by norm_num)).1⟩

/-- Witness for C10 at longitudes 15 (in bounds), 400 (clamped to Pisces) and
-45 (negative index, panic). -/
theorem zodiacSign_total_above_neg30_witness :
    ((-30 : ℚ) < 15 ∧ (ZodiacSign 15).isSome = true) ∧
    ((360 : ℚ) ≤ 400 ∧ ZodiacSign 400 = some ("Pisces", 400 - 330)) ∧
    ((-45 : ℚ) ≤ -30 ∧ ZodiacSign (-45) = none) :=
  ⟨⟨by norm_num, (zodiacSign_total_above_neg30 15).1 (by norm_num)⟩,
   ⟨by norm_num, (zodiacSign_total_above_neg30 400).2.1 (by norm_num)⟩,
   ⟨by norm_num, (zodiacSign_total_above_neg30 (-45)).2.2 (by norm_num)⟩⟩

/-- Witness for the amended C3 at the all-uppercase input "PLACIDUS". -/
theorem parseHouseSystem_resolves_witness :
    goToLower "PLACIDUS" = "placidus" ∧
    cmd.parseHouseSystem "PLACIDUS" = .ok ('P', "Placidus") :=
  ⟨rfl, (parseHouseSystem_resolves "PLACIDUS").2.1 rfl⟩

/-- The string "koch" written with a leading Kelvin sign U+212A instead of an
ASCII K.  It is not an ASCII-case variant of any recognized name, yet Go
`strings.ToLower` maps the Kelvin sign to an ASCII k, so the resolver accepts
it. -/
def kelvinKoch : String := String.mk [Char.ofNat 0x212A, 'o', 'c', 'h']

/-- Counterexample to C3 as stated: an input string that is not a recognized
house-system name in any ASCII case (its ASCII lowercasing is not one of the
six valid names) on which the resolver nevertheless succeeds instead of
failing. -/
theorem parseHouseSystem_nonAscii_counterexample :
    cmd.parseHouseSystem kelvinKoch = .ok ('K', "Koch") ∧
    asciiLower kelvinKoch ∉ houseSystemValidNames ∧
    kelvinKoch ∉ houseSystemValidNames :=
  ⟨rfl, by decide, by decide⟩

/-- A fixed engine body position used by the concrete witness engines:
longitude 90 (Cancer 0), latitude 1, distance 2, speeds 3, 4, 5. -/
def posW : PlanetPos :=
  { Longitude := 90, Latitude := 1, Distance := 2,
    SpeedLon := 3, SpeedLat := 4, SpeedDistance := 5 }

/-- The planet entry `Build` produces from `posW` under the name "Sun". -/
def entryW : PlanetEntry :=
  { Name := "Sun", Longitude := 90, Sign := "Cancer", SignDegree := 0, Speed := 3,
    Latitude := 1, Distance := 2, SpeedLat := 4, SpeedDistance := 5 }

/-- A fixed house result used by the concrete witness engines: cusp of house i
at longitude 30*i, Ascendant 30, MC 300, ARMC 123, Vertex 210. -/
def hrW : HouseResult :=
  { Cusps := fun i => 30 * ((i : ℕ) : ℚ),
    Ascendant := 30, MC := 300, ARMC := 123, Vertex := 210 }

/-- A witness engine on which every operation succeeds. -/
def engW : Engine :=
  { PlanetName := fun _ => "Sun",
    CalcPlanet := fun _ _ => .ok posW,
    CalcHouses := fun _ _ _ _ => .ok hrW }

/-- The full Result `Build engW 1 [0] 2 3 'P' "Placidus"` produces. -/
def resW : Result :=
  { JulianDay := 1, HouseName := "Placidus", Lat := 2, Lon := 3,
    Planets := [entryW],
    Ascendant := { Longitude := 30, Sign := "Taurus", SignDegree := 0 },
    MC := { Longitude := 300, Sign := "Aquarius", SignDegree := 0 },
    ARMC := 123,
    Vertex := { Longitude := 210, Sign := "Scorpio", SignDegree := 0 },
    Cusps := [⟨1, 30, "Taurus", 0⟩, ⟨2, 60, "Gemini", 0⟩, ⟨3, 90, "Cancer", 0⟩,
              ⟨4, 120, "Leo", 0⟩, ⟨5, 150, "Virgo", 0⟩, ⟨6, 180, "Libra", 0⟩,
              ⟨7, 210, "Scorpio", 0⟩, ⟨8, 240, "Sagittarius", 0⟩,
              ⟨9, 270, "Capricorn", 0⟩, ⟨10, 300, "Aquarius", 0⟩,
              ⟨11, 330, "Pisces", 0⟩, ⟨12, 360, "Pisces", 30⟩] }

example : Build engW 1 [0] 2 3 'P' "Placidus" = some (.ok resW) := rfl

/-- A witness engine whose body calculations succeed but whose house
calculation fails. -/
def engHousesFail : Engine :=
  { PlanetName := fun _ => "Sun",
    CalcPlanet := fun _ _ => .ok posW,
    CalcHouses := fun _ _ _ _ => .error "houses boom" }

/-- Witness for C4: on `engHousesFail` the house calculation fails, the single
requested body succeeds, and `Build` returns the fatal houses error. -/
theorem build_houses_failure_fatal_witness :
    engHousesFail.CalcHouses 1 2 3 'P' = .error "houses boom" ∧
    planetLoop engHousesFail 1 [0] = some (.ok [entryW]) ∧
    Build engHousesFail 1 [0] 2 3 'P' "Placidus" =
      some (.error ("error calculating houses: " ++ "houses boom")) :=
  ⟨rfl, rfl,
   (build_houses_failure_fatal engHousesFail 1 [0] 2 3 'P' "Placidus"
      "houses boom" rfl).2 [entryW] rfl⟩

/-- Witness for C5 on the all-success engine `engW`. -/
theorem build_cusps_numbered_witness :
    Build engW 1 [0] 2 3 'P' "Placidus" = some (.ok resW) ∧
    engW.CalcHouses 1 2 3 'P' = .ok hrW ∧
    resW.Cusps.map CuspEntry.House = [1, 2, 3, 4, 5, 6, 7, 8, 9, 10, 11, 12] :=
  ⟨rfl, rfl,
   (build_cusps_numbered engW 1 [0] 2 3 'P' "Placidus" resW hrW rfl rfl).2.1⟩

/-- Witness for C6 on the all-success engine `engW`. -/
theorem build_populates_all_fields_witness :
    Build engW 1 [0] 2 3 'P' "Placidus" = some (.ok resW) ∧
    engW.CalcHouses 1 2 3 'P' = .ok hrW ∧
    resW.ARMC = hrW.ARMC ∧ resW.Vertex.Longitude = hrW.Vertex :=
  ⟨rfl, rfl,
   (build_populates_all_fields engW 1 [0] 2 3 'P' "Placidus" resW hrW rfl rfl).1,
   (build_populates_all_fields engW 1 [0] 2 3 'P' "Placidus" resW hrW rfl rfl).2.1⟩

/-- A witness engine on which body 0 fails, every other body succeeds, and
the house calculation succeeds. -/
def engSkipless : Engine :=
  { PlanetName := fun _ => "Moon",
    CalcPlanet := fun _ q => if q = 0 then .error "nofile" else .ok posW,
    CalcHouses := fun _ _ _ _ => .ok hrW }

/-- Counterexample to C1 as stated: on `engSkipless` body 0 fails while body 1
and the house calculation would succeed, yet `Build` - which has no
failure-policy parameter - aborts the whole Result with the body error; no
record-and-continue outcome (a Result omitting body 0) is ever produced. -/
theorem build_no_skip_mode_counterexample :
    Build engSkipless 1 [0, 1] 2 3 'P' "Placidus" =
      some (.error "error calculating Moon: nofile") := rfl

/-- Witness for the amended C1: with no preceding bodies, a failing body 0 and
a succeeding body 1, `Build` aborts with the error naming body 0. -/
theorem build_aborts_on_first_body_failure_witness :
    engSkipless.CalcPlanet 1 0 = .error "nofile" ∧
    Build engSkipless 1 ([] ++ 0 :: [1]) 2 3 'P' "Placidus" =
      some (.error ("error calculating " ++ engSkipless.PlanetName 0 ++ ": " ++ "nofile")) :=
  ⟨rfl,
   build_aborts_on_first_body_failure engSkipless 1 [] 0 [1] 2 3 'P' "Placidus"
     "nofile" (fun q hq => absurd hq (List.not_mem_nil q)) rfl⟩

end Astro
